import Mathlib

/-!
Verification of the editpro image-adjustment pipeline (the `processImage`
function of `src/utils/presetEngine.ts`) against its natural-language
specification.

Pixel buffers are modelled as lists of RGBA pixels with exact rational
channel values.  Storing a value into an `ImageData` buffer (a
`Uint8ClampedArray`) clamps it to `[0, 255]` and rounds to the nearest
integer with ties to even; this is modelled by `u8store`.  The canvas
primitives the engine delegates to (the CSS base-filter pass, Gaussian
blur, the radial vignette gradient, and text rendering) are not
implemented in the repository; they are passed in as an `Oracles` record
of buffer transformers, and a concrete spec-modelled blur (`boxBlur`) is
supplied where a witness needs one.
-/

/-- One RGBA pixel of an `ImageData` buffer; channel values are exact
rationals. -/
structure Pixel where
  r : ℚ
  g : ℚ
  b : ℚ
  a : ℚ
deriving DecidableEq, Repr

/-- JavaScript `Math.min` on finite numbers. -/
def jsMin (x y : ℚ) : ℚ := if x ≤ y then x else y

/-- JavaScript `Math.max` on finite numbers. -/
def jsMax (x y : ℚ) : ℚ := if x ≤ y then y else x

/-- JavaScript `Math.abs` on finite numbers. -/
def jsAbs (x : ℚ) : ℚ := if x < 0 then -x else x

/-- Round to the nearest integer, ties to the even neighbour — the
rounding performed by a `Uint8ClampedArray` store. -/
def roundTE (x : ℚ) : ℤ :=
  let f := ⌊x⌋
  let d := x - f
  if d < 1/2 then f
  else if d > 1/2 then f + 1
  else if f % 2 = 0 then f else f + 1

/-- Storing a rational value into a `Uint8ClampedArray` slot: clamp to
`[0, 255]` (the explicit `Math.max(0, Math.min(255, ·))` of the source,
which the typed array would enforce anyway), then round to the nearest
integer, ties to even. -/
def u8store (x : ℚ) : ℚ :=
  (roundTE (jsMax 0 (jsMin 255 x)) : ℚ)

/-- Per-section disable flags (the `disabledSections` record); the engine
reads the keys basic, detail, effects, retouch and watermark; the grading
key exists in the UI but is never consulted by `processImage`. -/
structure Disabled where
  basic : Bool := false
  detail : Bool := false
  grading : Bool := false
  effects : Bool := false
  retouch : Bool := false
  watermark : Bool := false

/-- The `ManualSettings` record of `src/data/presets.ts`, with the
defaults used by the destructuring at the top of `processImage` (fields
the engine never reads keep the UI defaults of `App.tsx`). -/
structure Settings where
  exposure : ℚ := 1
  whites : ℚ := 1
  blacks : ℚ := 1
  contrast : ℚ := 1
  highlights : ℚ := 1
  shadows : ℚ := 1
  saturation : ℚ := 1
  vibrance : ℚ := 1
  texture : ℚ := 0
  clarity : ℚ := 0
  dehaze : ℚ := 0
  temp : ℚ := 0
  tint : ℚ := 0
  sharpness : ℚ := 0
  skinSoftening : ℚ := 0
  dodgeBurn : ℚ := 0
  sharpenRadius : ℚ := 1
  sharpenDetail : ℚ := 25
  vignette : ℚ := 0
  grain : ℚ := 0
  watermarkText : String := ""
  watermarkOpacity : ℚ := 0.8
  watermarkSize : ℚ := 20
  watermarkColor : String := "#ffffff"
  whiteOverlay : ℚ := 0
  blackOverlay : ℚ := 0
  brightness : ℚ := 1
  noiseReduction : ℚ := 0
  hue : ℚ := 0
  levelsBlack : ℚ := 0
  levelsWhite : ℚ := 255
  tintShadows : String := "#000000"
  tintHighlights : String := "#ffffff"
  autoBrush : ℚ := 0
  curves : ℚ := 0
  skinTone : ℚ := 0
  disabled : Disabled := {}

/-- Preset field `colorBalance`. -/
structure ColorBalance where
  temp : ℚ
  tint : ℚ

/-- Preset field `frequencySeparation`. -/
structure FrequencySeparation where
  radius : ℚ
  intensity : ℚ
  toneSmoothing : Option Bool := none

/-- Preset field `tonalRange`. -/
structure TonalRange where
  whites : ℚ
  blacks : ℚ
  highlights : ℚ
  shadows : ℚ
  dehaze : Option ℚ := none

/-- Preset field `toneCurve`. -/
structure ToneCurve where
  highlights : ℚ
  lights : ℚ
  darks : ℚ
  shadows : ℚ

/-- Preset field `glow`. -/
structure Glow where
  intensity : ℚ
  radius : ℚ

/-- Preset field `overlay`. -/
structure PresetOverlay where
  type : String
  intensity : ℚ
  color : Option String := none

/-- The `PresetSettings` record of `src/data/presets.ts`. -/
structure PresetSettings where
  id : String
  name : String
  category : String
  filters : String
  overlay : Option PresetOverlay := none
  aiSubjectOnly : Option Bool := none
  frequencySeparation : Option FrequencySeparation := none
  tonalRange : Option TonalRange := none
  toneCurve : Option ToneCurve := none
  colorBalance : Option ColorBalance := none
  glow : Option Glow := none

/-- Merged preset temperature `preset.colorBalance?.temp || 0` (in
JavaScript a missing record or a falsy — that is, zero — temperature
both yield 0). -/
def presetTemp (pr : PresetSettings) : ℚ :=
  match pr.colorBalance with
  | none => 0
  | some cb => if cb.temp = 0 then 0 else cb.temp

/-- Merged preset tint `preset.colorBalance?.tint || 0`. -/
def presetTint (pr : PresetSettings) : ℚ :=
  match pr.colorBalance with
  | none => 0
  | some cb => if cb.tint = 0 then 0 else cb.tint

/-- White-balance helper `applyWB` of the source: sequential updates
`r += t·0.5; b -= t·0.5; g -= tn·0.5; r += tn·0.25; b += tn·0.25`,
returning `(r, g, b)`. -/
def applyWB (r g b t tn : ℚ) : ℚ × ℚ × ℚ :=
  let r1 := r + t * 0.5
  let b1 := b - t * 0.5
  let g1 := g - tn * 0.5
  let r2 := r1 + tn * 0.25
  let b2 := b1 + tn * 0.25
  (r2, g1, b2)

/-- Body of the Step 1 (basic & color correction) per-pixel loop: white
balance, then exposure and whites multiplication, then the blacks offset,
then the optional dehaze expansion, then the clamped store into the
`ImageData` buffer.  (`whites ?? 1` in the source is just `whites`, since
the destructuring already defaulted it to 1.) -/
def tonePixel (pr : PresetSettings) (s : Settings) (p : Pixel) : Pixel :=
  let wb := applyWB p.r p.g p.b (presetTemp pr + s.temp) (presetTint pr + s.tint)
  let r1 := wb.1 * s.exposure * s.whites
  let g1 := wb.2.1 * s.exposure * s.whites
  let b1 := wb.2.2 * s.exposure * s.whites
  let off := (s.blacks - 1) * 50
  let r2 := r1 + off
  let g2 := g1 + off
  let b2 := b1 + off
  let r3 := if s.dehaze ≠ 0 then (r2 - 128) * (1 + s.dehaze * 0.3) + 128 + s.dehaze * 15 else r2
  let g3 := if s.dehaze ≠ 0 then (g2 - 128) * (1 + s.dehaze * 0.3) + 128 + s.dehaze * 15 else g2
  let b3 := if s.dehaze ≠ 0 then (b2 - 128) * (1 + s.dehaze * 0.3) + 128 + s.dehaze * 15 else b2
  ⟨u8store r3, u8store g3, u8store b3, p.a⟩

/-- Step 1 of `processImage`: the ToneStage loop, skipped entirely when
`disabledSections['basic']` is set. -/
def toneStage (pr : PresetSettings) (s : Settings) (buf : List Pixel) : List Pixel :=
  if s.disabled.basic then buf else buf.map (tonePixel pr s)

/-- ToneStage per-pixel transform as worded by the specification (claim
C2): (1) white balance as composed offsets, (2) multiply by
`exposure · whites`, (3) add `(blacks − 1) · 50`, (4) dehaze expansion
around 128 when `dehaze ≠ 0`; then the channel is clamped to `[0, 255]`
(stored through the same `Uint8ClampedArray` store `u8store`, whose
rounding rule the spec leaves open in §9 and which both readings share). -/
def toneSpecPixel (pr : PresetSettings) (s : Settings) (p : Pixel) : Pixel :=
  let t := presetTemp pr + s.temp
  let tn := presetTint pr + s.tint
  let r1 := p.r + 0.5 * t + 0.25 * tn
  let g1 := p.g - 0.5 * tn
  let b1 := p.b - 0.5 * t + 0.25 * tn
  let r2 := r1 * (s.exposure * s.whites)
  let g2 := g1 * (s.exposure * s.whites)
  let b2 := b1 * (s.exposure * s.whites)
  let r3 := r2 + (s.blacks - 1) * 50
  let g3 := g2 + (s.blacks - 1) * 50
  let b3 := b2 + (s.blacks - 1) * 50
  let r4 := if s.dehaze ≠ 0 then (r3 - 128) * (1 + 0.3 * s.dehaze) + 128 + 15 * s.dehaze else r3
  let g4 := if s.dehaze ≠ 0 then (g3 - 128) * (1 + 0.3 * s.dehaze) + 128 + 15 * s.dehaze else g3
  let b4 := if s.dehaze ≠ 0 then (b3 - 128) * (1 + 0.3 * s.dehaze) + 128 + 15 * s.dehaze else b3
  ⟨u8store r4, u8store g4, u8store b4, p.a⟩

/-- ToneStage as worded by the specification: unchanged buffer when the
basic section is disabled, otherwise the per-pixel spec transform. -/
def toneStageSpec (pr : PresetSettings) (s : Settings) (buf : List Pixel) : List Pixel :=
  if s.disabled.basic then buf else buf.map (toneSpecPixel pr s)

/-- Frequency-separation blur radius
`preset.frequencySeparation?.radius || 8`: a missing record or a falsy —
that is, zero — radius both fall back to 8. -/
def fsRadius (pr : PresetSettings) : ℚ :=
  match pr.frequencySeparation with
  | none => 8
  | some fsep => if fsep.radius = 0 then 8 else fsep.radius

/-- The skin heuristic of the retouch branch:
`r > 95 && g > 40 && b > 20 && r > g && r > b && Math.abs(r - g) > 15`. -/
def isSkin (r g b : ℚ) : Prop :=
  r > 95 ∧ g > 40 ∧ b > 20 ∧ r > g ∧ r > b ∧ jsAbs (r - g) > 15

instance (r g b : ℚ) : Decidable (isSkin r g b) := by
  unfold isSkin; infer_instance

/-- The retouch blend factor
`(skinSoftening * 0.6 + (texture < 0 ? Math.abs(texture) : 0)) * 0.8`. -/
def blendFactor (skinSoftening texture : ℚ) : ℚ :=
  (skinSoftening * 0.6 + (if texture < 0 then jsAbs texture else 0)) * 0.8

/-- The vibrance block of the Step 3 loop (executed only when
`vibrance !== 1`); returns the updated `(r, g, b)`. -/
def vibrancePixel (v r g b : ℚ) : ℚ × ℚ × ℚ :=
  if v ≠ 1 then
    let mx := jsMax r (jsMax g b)
    let mn := jsMin r (jsMin g b)
    let l := (mx + mn) / 510
    let sat := if mx = mn then 0
      else if l > 1/2 then (mx - mn) / (510 - mx - mn)
      else (mx - mn) / (mx + mn)
    let vF := 1 + (1 - sat) * (v - 1)
    (l * 255 + (r - l * 255) * vF, l * 255 + (g - l * 255) * vF,
      l * 255 + (b - l * 255) * vF)
  else (r, g, b)

/-- Body of the combined Step 3 loop: texture, clarity, vibrance, then
the gated skin retouch (frequency-separation blend and dodge/burn boost),
then the clamped store.  `fine`, `med` and `fs` are the corresponding
pixels of the 2px, 12px and frequency-separation blur buffers. -/
def mainPixel (s : Settings) (p fine med fs : Pixel) : Pixel :=
  let r1 := if s.texture ≠ 0 then p.r + (p.r - fine.r) * s.texture * 0.8 else p.r
  let g1 := if s.texture ≠ 0 then p.g + (p.g - fine.g) * s.texture * 0.8 else p.g
  let b1 := if s.texture ≠ 0 then p.b + (p.b - fine.b) * s.texture * 0.8 else p.b
  let r2 := if s.clarity ≠ 0 then r1 + (r1 - med.r) * s.clarity * 0.5 else r1
  let g2 := if s.clarity ≠ 0 then g1 + (g1 - med.g) * s.clarity * 0.5 else g1
  let b2 := if s.clarity ≠ 0 then b1 + (b1 - med.b) * s.clarity * 0.5 else b1
  let v := vibrancePixel s.vibrance r2 g2 b2
  let r3 := v.1
  let g3 := v.2.1
  let b3 := v.2.2
  let blend := blendFactor s.skinSoftening s.texture
  let r4 := if s.disabled.retouch = false ∧ isSkin r3 g3 b3 then
    r3 * (1 - blend) + fs.r * blend else r3
  let g4 := if s.disabled.retouch = false ∧ isSkin r3 g3 b3 then
    g3 * (1 - blend) + fs.g * blend else g3
  let b4 := if s.disabled.retouch = false ∧ isSkin r3 g3 b3 then
    b3 * (1 - blend) + fs.b * blend else b3
  let boost := 1 + ((r4 + g4 + b4) / 3 - 128) / 128 * s.dodgeBurn * 0.4
  let r5 := if (s.disabled.retouch = false ∧ isSkin r3 g3 b3) ∧ s.dodgeBurn > 0 then
    r4 * boost else r4
  let g5 := if (s.disabled.retouch = false ∧ isSkin r3 g3 b3) ∧ s.dodgeBurn > 0 then
    g4 * boost else g4
  let b5 := if (s.disabled.retouch = false ∧ isSkin r3 g3 b3) ∧ s.dodgeBurn > 0 then
    b4 * boost else b4
  ⟨u8store r5, u8store g5, u8store b5, p.a⟩

/-- Four-way zip used to run a per-pixel loop over the working buffer and
the three shared blur buffers (all of equal length in an actual run). -/
def zipWith4 (f : Pixel → Pixel → Pixel → Pixel → Pixel) :
    List Pixel → List Pixel → List Pixel → List Pixel → List Pixel
  | p :: ps, q :: qs, u :: us, w :: ws => f p q u w :: zipWith4 f ps qs us ws
  | _, _, _, _ => []

/-- The combined Step 3 loop over the whole buffer. -/
def mainStage (s : Settings) (buf fine med fs : List Pixel) : List Pixel :=
  zipWith4 (mainPixel s) buf fine med fs

/-- Body of the unsharp-mask loop (Detail panel): each channel receives
`(channel − blurred) · intensity`; every compound assignment stores
through the clamping `Uint8ClampedArray`. -/
def detailPixel (intensity : ℚ) (p bl : Pixel) : Pixel :=
  ⟨u8store (p.r + (p.r - bl.r) * intensity),
   u8store (p.g + (p.g - bl.g) * intensity),
   u8store (p.b + (p.b - bl.b) * intensity), p.a⟩

/-- Per-channel screen compositing of a full-frame white fill at the
given alpha onto an opaque pixel.  Modelled from the spec: §4.8 gives
`screen(a,b) = 255 − (255−a)(255−b)/255`, so a white source collapses to
`(1−alpha)·c + 255·alpha`; the fill itself is a canvas primitive not
implemented in the repository. -/
def screenWhitePixel (al : ℚ) (p : Pixel) : Pixel :=
  ⟨u8store ((1 - al) * p.r + 255 * al), u8store ((1 - al) * p.g + 255 * al),
   u8store ((1 - al) * p.b + 255 * al), p.a⟩

/-- Per-channel multiply compositing of a full-frame black fill at the
given alpha.  Modelled from the spec: §4.8 gives `multiply(a,b) = a·b/255`,
so a black source collapses to `(1−alpha)·c`. -/
def multiplyBlackPixel (al : ℚ) (p : Pixel) : Pixel :=
  ⟨u8store ((1 - al) * p.r), u8store ((1 - al) * p.g),
   u8store ((1 - al) * p.b), p.a⟩

/-- Step 4 tonal overlays: the white screen wash at
`alpha = whiteOverlay · 0.3` and the black multiply wash at
`alpha = blackOverlay`, both gated by `disabledSections['effects']` and
their own positivity guards. -/
def effectsStage (s : Settings) (buf : List Pixel) : List Pixel :=
  let b1 := if s.disabled.effects = false ∧ s.whiteOverlay > 0 then
    buf.map (screenWhitePixel (s.whiteOverlay * 0.3)) else buf
  if s.disabled.effects = false ∧ s.blackOverlay > 0 then
    b1.map (multiplyBlackPixel s.blackOverlay) else b1

/-- The raster primitives `processImage` borrows from the canvas backend;
none of them is implemented in the repository (spec §1 treats them as
capabilities of the surrounding graphics backend): the composed CSS
base-filter pass (arguments: the preset's filter string, contrast,
saturation), Gaussian blur at a radius, the radial vignette gradient at
an intensity, and watermark text rendering (arguments: text, opacity,
size, color — the manual parameters the source's watermark block reads). -/
structure Oracles where
  baseFilter : String → ℚ → ℚ → List Pixel → List Pixel
  blur : ℚ → List Pixel → List Pixel
  vignetteFx : ℚ → List Pixel → List Pixel
  watermarkFx : String → ℚ → ℚ → String → List Pixel → List Pixel

/-- The Detail panel's unsharp-mask pass: gated by
`disabledSections['detail']` and `sharpness > 0`; blurs the post-base
buffer at `sharpenRadius` and applies `detailPixel` with
`intensity = sharpness · (0.5 + sharpenDetail / 50)`. -/
def detailStage (O : Oracles) (s : Settings) (base : List Pixel) : List Pixel :=
  if s.disabled.detail = false ∧ s.sharpness > 0 then
    List.zipWith (detailPixel (s.sharpness * (0.5 + s.sharpenDetail / 50))) base
      (O.blur s.sharpenRadius base)
  else base

/-- Step 3 of `processImage`: derive the three shared blur buffers from
the post-base buffer, run the unsharp-mask loop, then the combined
presence/vibrance/retouch loop. -/
def stage3 (O : Oracles) (pr : PresetSettings) (s : Settings)
    (base : List Pixel) : List Pixel :=
  mainStage s (detailStage O s base) (O.blur 2 base) (O.blur 12 base)
    (O.blur (fsRadius pr) base)

/-- The manual vignette composite, gated only by `vignette > 0` (not by
any section flag). -/
def vignetteStage (O : Oracles) (s : Settings) (buf : List Pixel) : List Pixel :=
  if s.vignette > 0 then O.vignetteFx s.vignette buf else buf

/-- The watermark composite, gated by `disabledSections['watermark']`, a
non-empty text and a positive opacity. -/
def watermarkStage (O : Oracles) (s : Settings) (buf : List Pixel) : List Pixel :=
  if s.disabled.watermark = false ∧ s.watermarkText ≠ "" ∧ s.watermarkOpacity > 0 then
    O.watermarkFx s.watermarkText s.watermarkOpacity s.watermarkSize s.watermarkColor buf
  else buf

/-- Steps 2–4 of `processImage` after the ToneStage: CSS base filter,
Step 3 (blur buffers, unsharp mask, combined loop), vignette, tonal
overlays, watermark. -/
def pipelineAfterTone (O : Oracles) (pr : PresetSettings) (s : Settings)
    (toned : List Pixel) : List Pixel :=
  watermarkStage O s (effectsStage s (vignetteStage O s
    (stage3 O pr s (O.baseFilter pr.filters s.contrast s.saturation toned))))

/-- The whole pipeline run on a decoded buffer: ToneStage followed by
Steps 2–4.  The final `toDataURL` encode is a deterministic function of
this buffer and is not modelled. -/
def processPipeline (O : Oracles) (pr : PresetSettings) (s : Settings)
    (img : List Pixel) : List Pixel :=
  pipelineAfterTone O pr s (toneStage pr s img)

/-- Which event the browser fires for the `Image` created by
`processImage`: either the source decodes (`onload` fires with the
decoded buffer) or decoding fails (the `error` event fires). -/
inductive LoadEvent where
  | loads (img : List Pixel)
  | fails

/-- Settlement of the promise returned by `processImage`: the executor
installs only an `img.onload` handler and `resolve` is called only inside
it, so the promise settles exactly when the load event fires; on a decode
failure no handler runs and the promise never settles (`none`). -/
def processImageOutcome (O : Oracles) (pr : PresetSettings) (s : Settings)
    (ev : LoadEvent) : Option (List Pixel) :=
  match ev with
  | .loads img => some (processPipeline O pr s img)
  | .fails => none

/-- Channel-wise average of a list of pixels. -/
def pixAvg (l : List Pixel) : Pixel :=
  ⟨(l.map Pixel.r).sum / l.length, (l.map Pixel.g).sum / l.length,
   (l.map Pixel.b).sum / l.length, (l.map Pixel.a).sum / l.length⟩

/-- Modelled from the spec: the BlurEngine (§4.1) is a deterministic
Gaussian-like blur primitive, not implemented in the repository (the
engine uses the canvas `blur(...)` filter).  This concrete instance — a
one-row box average over the window of integer radius around each index,
radius 0 giving a copy — satisfies the §4.1 contract and is used to
instantiate the blur oracle in witnesses. -/
def boxBlur (radius : ℚ) (buf : List Pixel) : List Pixel :=
  let rad := ⌊radius⌋.toNat
  (List.range buf.length).map fun i => pixAvg ((buf.take (i + rad + 1)).drop (i - rad))

/-- A concrete oracle instance: identity base filter (an empty recipe
with `contrast(1) saturate(1)` is the identity color transform), the
spec-modelled `boxBlur`, and identity vignette/watermark placeholders
(used only in runs where those stages are skipped). -/
def O0 : Oracles :=
  ⟨fun _ _ _ buf => buf, boxBlur, fun _ buf => buf, fun _ _ _ _ buf => buf⟩

/-- The section keys of `disabledSections`. -/
inductive SectionKey where
  | basic
  | detail
  | grading
  | effects
  | retouch
  | watermark

/-- Set one section's disable flag. -/
def setFlag (k : SectionKey) (v : Bool) (s : Settings) : Settings :=
  match k with
  | .basic => { s with disabled := { s.disabled with basic := v } }
  | .detail => { s with disabled := { s.disabled with detail := v } }
  | .grading => { s with disabled := { s.disabled with grading := v } }
  | .effects => { s with disabled := { s.disabled with effects := v } }
  | .retouch => { s with disabled := { s.disabled with retouch := v } }
  | .watermark => { s with disabled := { s.disabled with watermark := v } }

/-- Reset a section's own manual parameters to their documented no-op
defaults.  "Own parameters" are the parameters consumed by the code that
the section's flag gates (spec §4.3–§4.9): contrast, saturation, texture,
clarity and vibrance belong to the ungated BaseFilter, Presence and
Vibrance stages (§4.2, §4.5, §4.6) and vignette is explicitly unconditional
(§4.8), so none of them is reset by any key. -/
def sectionDefaults (k : SectionKey) (s : Settings) : Settings :=
  match k with
  | .basic => { s with temp := 0, tint := 0, exposure := 1, whites := 1, blacks := 1, dehaze := 0, highlights := 1, shadows := 1 }
  | .detail => { s with sharpness := 0, sharpenRadius := 1, sharpenDetail := 25, noiseReduction := 0 }
  | .grading => { s with tintShadows := "#000000", tintHighlights := "#ffffff" }
  | .effects => { s with whiteOverlay := 0, blackOverlay := 0 }
  | .retouch => { s with skinSoftening := 0, skinTone := 0, dodgeBurn := 0 }
  | .watermark => { s with watermarkText := "", watermarkOpacity := 0.8, watermarkSize := 20, watermarkColor := "#ffffff" }

/-- A channel value as stored in a real `ImageData` buffer: an integer in
`[0, 255]`. -/
def chanWF (x : ℚ) : Prop := x.den = 1 ∧ 0 ≤ x ∧ x ≤ 255

/-- A pixel whose color channels are stored channel values. -/
def PixelWF (p : Pixel) : Prop := chanWF p.r ∧ chanWF p.g ∧ chanWF p.b

/-- A buffer of stored pixels, as produced by any real decode. -/
def BufWF (l : List Pixel) : Prop := ∀ p ∈ l, PixelWF p

instance (x : ℚ) : Decidable (chanWF x) := by unfold chanWF; infer_instance

instance (p : Pixel) : Decidable (PixelWF p) := by unfold PixelWF; infer_instance

instance (l : List Pixel) : Decidable (BufWF l) := by
  unfold BufWF; exact List.decidableBAll PixelWF l

/-- All color-channel values of a pixel lie in `[0, 255]`. -/
def InRange (p : Pixel) : Prop :=
  0 ≤ p.r ∧ p.r ≤ 255 ∧ 0 ≤ p.g ∧ p.g ≤ 255 ∧ 0 ≤ p.b ∧ p.b ≤ 255

/-- A preset carrying an explicit zero frequency-separation radius. -/
def prZeroRadius : PresetSettings :=
  { id := "z", name := "z", category := "c", filters := "",
    frequencySeparation := some ⟨0, 1, none⟩ }

/-- The uniform mid-gray pixel of the C8 scenario. -/
def gray128 : Pixel := ⟨128, 128, 128, 255⟩

/-- The expected post-ToneStage pixel of the C8 scenario. -/
def gray154 : Pixel := ⟨154, 154, 154, 255⟩

/-- Manual settings of the C8 scenario: exposure 1.2, everything else at
its default. -/
def s8 : Settings := { exposure := 6/5 }

/-- Default preset with an empty filter string (C8 scenario). -/
def pr8 : PresetSettings := { id := "d", name := "d", category := "c", filters := "" }

/-- C3 counterexample input image: one skin-classified pixel next to a
non-skin pixel. -/
def img0 : List Pixel := [⟨200, 150, 100, 255⟩, ⟨100, 150, 100, 255⟩]

/-- A minimal preset: empty filter recipe, no structured fields. -/
def pr0 : PresetSettings := { id := "p", name := "p", category := "c", filters := "" }

/-- Manual settings with a negative texture (all else default). -/
def sTex : Settings := { texture := -1/2 }

lemma zipWith4_nil (f : Pixel → Pixel → Pixel → Pixel → Pixel)
    (l2 l3 l4 : List Pixel) : zipWith4 f [] l2 l3 l4 = [] := rfl

lemma clamp_bounds (x : ℚ) : 0 ≤ jsMax 0 (jsMin 255 x) ∧ jsMax 0 (jsMin 255 x) ≤ 255 := by
  unfold jsMax jsMin
  split_ifs <;> constructor <;> linarith

lemma clamp_eq_self {x : ℚ} (h0 : 0 ≤ x) (h255 : x ≤ 255) : jsMax 0 (jsMin 255 x) = x := by
  unfold jsMax jsMin
  split_ifs <;> linarith

lemma roundTE_int (n : ℤ) : roundTE ((n : ℤ) : ℚ) = n := by
  unfold roundTE
  rw [Int.floor_intCast]
  simp

lemma roundTE_bounds {y : ℚ} (h0 : 0 ≤ y) (h255 : y ≤ 255) :
    0 ≤ roundTE y ∧ roundTE y ≤ 255 := by
  unfold roundTE
  have hfl : (⌊y⌋ : ℚ) ≤ y := Int.floor_le y
  have hfu : y < ⌊y⌋ + 1 := Int.lt_floor_add_one y
  have h0' : 0 ≤ ⌊y⌋ := Int.le_floor.mpr (by exact_mod_cast h0)
  have h255' : ⌊y⌋ ≤ 255 := by
    have h := Int.floor_le_floor h255
    rwa [show ⌊(255:ℚ)⌋ = 255 from by norm_num] at h
  have hne : ⌊y⌋ = 255 → y - (⌊y⌋ : ℚ) = 0 := by
    intro hf
    have ha : (255 : ℚ) ≤ y := by
      have hb := hfl
      rw [hf] at hb
      exact_mod_cast hb
    have hc : y = 255 := le_antisymm h255 ha
    rw [hf, hc]
    norm_num
  dsimp only
  split_ifs with h1 h2 _h3
  · exact ⟨h0', h255'⟩
  · refine ⟨by omega, ?_⟩
    by_contra hc
    have hf : ⌊y⌋ = 255 := by omega
    have := hne hf
    rw [this] at h2; norm_num at h2
  · refine ⟨by omega, ?_⟩
    by_contra hc
    have hf : ⌊y⌋ = 255 := by omega
    have := hne hf
    rw [this] at h1; norm_num at h1
  · refine ⟨by omega, ?_⟩
    by_contra hc
    have hf : ⌊y⌋ = 255 := by omega
    have := hne hf
    rw [this] at h1; norm_num at h1

lemma u8store_bounds (x : ℚ) : 0 ≤ u8store x ∧ u8store x ≤ 255 := by
  obtain ⟨hc0, hc255⟩ := clamp_bounds x
  obtain ⟨hr0, hr255⟩ := roundTE_bounds hc0 hc255
  unfold u8store
  exact ⟨by exact_mod_cast hr0, by exact_mod_cast hr255⟩

lemma u8store_eq_self {x : ℚ} (h : chanWF x) : u8store x = x := by
  obtain ⟨hden, h0, h255⟩ := h
  have hx : ((x.num : ℤ) : ℚ) = x := by
    conv_rhs => rw [← Rat.num_div_den x]
    rw [hden]
    simp
  rw [u8store, clamp_eq_self h0 h255, ← hx, roundTE_int]

lemma zipWith4_mem (f : Pixel → Pixel → Pixel → Pixel → Pixel) :
    ∀ (l1 l2 l3 l4 : List Pixel) (q : Pixel), q ∈ zipWith4 f l1 l2 l3 l4 →
      ∃ a b c d, q = f a b c d := by
  intro l1
  induction l1 with
  | nil =>
    intro l2 l3 l4 q h
    rw [zipWith4_nil] at h
    exact absurd h (List.not_mem_nil q)
  | cons a t ih =>
    intro l2 l3 l4 q h
    cases l2 with
    | nil =>
      rw [show zipWith4 f (a :: t) [] l3 l4 = [] from rfl] at h
      exact absurd h (List.not_mem_nil q)
    | cons b t2 =>
      cases l3 with
      | nil =>
        rw [show zipWith4 f (a :: t) (b :: t2) [] l4 = [] from rfl] at h
        exact absurd h (List.not_mem_nil q)
      | cons c t3 =>
        cases l4 with
        | nil =>
          rw [show zipWith4 f (a :: t) (b :: t2) (c :: t3) [] = [] from rfl] at h
          exact absurd h (List.not_mem_nil q)
        | cons d t4 =>
          rw [show zipWith4 f (a :: t) (b :: t2) (c :: t3) (d :: t4) =
            f a b c d :: zipWith4 f t t2 t3 t4 from rfl] at h
          rcases List.mem_cons.mp h with h1 | h2
          · exact ⟨a, b, c, d, h1⟩
          · exact ih t2 t3 t4 q h2

lemma tonePixel_in_range (pr : PresetSettings) (s : Settings) (p : Pixel) :
    InRange (tonePixel pr s p) := by
  unfold InRange tonePixel
  dsimp only
  exact ⟨(u8store_bounds _).1, (u8store_bounds _).2, (u8store_bounds _).1,
         (u8store_bounds _).2, (u8store_bounds _).1, (u8store_bounds _).2⟩

lemma mainPixel_in_range (s : Settings) (p fine med fs : Pixel) :
    InRange (mainPixel s p fine med fs) := by
  unfold InRange mainPixel
  dsimp only
  exact ⟨(u8store_bounds _).1, (u8store_bounds _).2, (u8store_bounds _).1,
         (u8store_bounds _).2, (u8store_bounds _).1, (u8store_bounds _).2⟩

/-- C1: every channel value written back by a pipeline stage lies in
`[0, 255]` in that stage's output buffer: when the basic section is
enabled every pixel of the ToneStage output is in range, and every pixel
of the combined presence/vibrance/retouch loop's output is in range for
arbitrary working and blur buffers (both loops store through the clamped
`Uint8ClampedArray` write `u8store`). -/
theorem c1_stage_output_channels_bounded (pr : PresetSettings) (s : Settings)
    (buf fine med fs : List Pixel) (hb : s.disabled.basic = false) :
    (∀ q ∈ toneStage pr s buf, InRange q) ∧
    (∀ q ∈ mainStage s buf fine med fs, InRange q) := by
  constructor
  · intro q hq
    unfold toneStage at hq
    rw [hb] at hq
    simp only [Bool.false_eq_true, if_false] at hq
    obtain ⟨p, _, rfl⟩ := List.mem_map.mp hq
    exact tonePixel_in_range pr s p
  · intro q hq
    obtain ⟨a, b, c, d, rfl⟩ := zipWith4_mem (mainPixel s) buf fine med fs q hq
    exact mainPixel_in_range s a b c d

/-- C1 witness: the bound evaluated on the concrete two-pixel image with
the basic section enabled. -/
theorem c1_stage_output_witness :
    (∀ q ∈ toneStage pr0 sTex img0, InRange q) ∧
    (∀ q ∈ mainStage sTex img0 img0 img0 img0, InRange q) :=
  c1_stage_output_channels_bounded pr0 sTex img0 img0 img0 img0 rfl

lemma tonePixel_eq_spec (pr : PresetSettings) (s : Settings) (p : Pixel) :
    tonePixel pr s p = toneSpecPixel pr s p := by
  unfold tonePixel toneSpecPixel applyWB
  dsimp only
  congr 1
  · congr 1
    split_ifs <;> ring
  · congr 1
    split_ifs <;> ring
  · congr 1
    split_ifs <;> ring

/-- C2: the ToneStage transforms each pixel exactly as the specification
orders it — white balance, multiplication by exposure·whites, the blacks
offset, the optional dehaze expansion, then the clamped store — and
leaves the buffer unchanged when the basic section is disabled. -/
theorem c2_tone_stage_matches_spec (pr : PresetSettings) (s : Settings)
    (buf : List Pixel) : toneStage pr s buf = toneStageSpec pr s buf := by
  unfold toneStage toneStageSpec
  cases hb : s.disabled.basic with
  | true => simp [hb]
  | false =>
    simp only [hb, Bool.false_eq_true, if_false]
    exact List.map_congr_left fun p _ => tonePixel_eq_spec pr s p

/-- C4: the preset's structured fields tonalRange, toneCurve, glow and
overlay are never consulted by the pipeline: replacing all four by
arbitrary values (present or absent) leaves the output of every run
unchanged, for every oracle instance, image and manual settings. -/
theorem c4_structured_preset_fields_ignored (O : Oracles) (pr : PresetSettings)
    (s : Settings) (img : List Pixel) (tr : Option TonalRange)
    (tc : Option ToneCurve) (gl : Option Glow) (ov : Option PresetOverlay) :
    processPipeline O { pr with tonalRange := tr, toneCurve := tc, glow := gl, overlay := ov } s img
      = processPipeline O pr s img := rfl

/-- C5: the promise returned by `processImage` settles (with the processed
buffer) exactly when the image decodes; when decoding fails it never
settles — the executor installs no error handler, so the call silently
hangs instead of surfacing a DecodeFailure. -/
theorem c5_decode_failure_never_settles (O : Oracles) (pr : PresetSettings)
    (s : Settings) :
    processImageOutcome O pr s LoadEvent.fails = none ∧
    ∀ img, processImageOutcome O pr s (LoadEvent.loads img) =
      some (processPipeline O pr s img) :=
  ⟨rfl, fun _ => rfl⟩

/-- C6 counterexample: at skinSoftening = 1 (inside `[0, 1]`) and
texture = −1 (inside `[−1, 1]`) the retouch blend factor of the source is
`(1·0.6 + 1)·0.8 = 1.28`, which exceeds 1 — refuting the claim that the
factor always lies in `[0, 1]`. -/
theorem c6_counterexample_blend_exceeds_one :
    0 ≤ (1:ℚ) ∧ (1:ℚ) ≤ 1 ∧ (-1:ℚ) ≤ 1 ∧ -1 ≤ (-1:ℚ) ∧
      ¬ blendFactor 1 (-1) ≤ 1 := by
  refine ⟨by norm_num, by norm_num, by norm_num, by norm_num, ?_⟩
  have h : blendFactor 1 (-1) = 32/25 := by with_unfolding_all rfl
  rw [h]
  norm_num

/-- C6 amended: for skinSoftening in `[0, 1]` and texture in `[−1, 1]`
the retouch blend factor lies in `[0, 1.28]` (the bound 1.28 = 32/25 is
attained, so `[0, 1]` is impossible). -/
theorem c6_blend_factor_bounds (ss t : ℚ) (h0 : 0 ≤ ss) (h1 : ss ≤ 1)
    (h2 : -1 ≤ t) (h3 : t ≤ 1) :
    0 ≤ blendFactor ss t ∧ blendFactor ss t ≤ 32/25 := by
  unfold blendFactor jsAbs
  split_ifs with h4 <;> constructor <;> nlinarith

/-- C6 amended, witness at skinSoftening = 1, texture = −1. -/
theorem c6_blend_factor_bounds_witness :
    0 ≤ blendFactor 1 (-1) ∧ blendFactor 1 (-1) ≤ 32/25 :=
  c6_blend_factor_bounds 1 (-1) (by norm_num) (by norm_num) (by norm_num) (by norm_num)

/-- C7: a fully desaturated pixel (r = g = b) is left unchanged by the
vibrance computation, for every channel value and every vibrance value
(including the skipped case vibrance = 1). -/
theorem c7_vibrance_fixes_gray (v c : ℚ) : vibrancePixel v c c c = (c, c, c) := by
  unfold vibrancePixel
  split_ifs with h
  · dsimp only
    rw [show jsMax c (jsMax c c) = c from by unfold jsMax; split_ifs <;> rfl,
        show jsMin c (jsMin c c) = c from by unfold jsMin; split_ifs <;> rfl]
    rw [if_pos rfl]
    simp only [Prod.mk.injEq]
    refine ⟨?_, ?_, ?_⟩ <;> ring
  · rfl

/-- C9: the alpha channel of every pixel is unchanged by the per-pixel
loops — the ToneStage loop, the unsharp-mask (DetailStage) loop, and the
combined presence/vibrance/retouch loop all write only the three color
channels. -/
theorem c9_pixel_loops_preserve_alpha (pr : PresetSettings) (s : Settings)
    (intensity : ℚ) (p fine med fs bl : Pixel) :
    (tonePixel pr s p).a = p.a ∧ (detailPixel intensity p bl).a = p.a ∧
    (mainPixel s p fine med fs).a = p.a :=
  ⟨rfl, rfl, rfl⟩

/-- C10: a preset whose frequencySeparation.radius is 0 gets the
frequency-separation blur radius 8 (the default), because the radius is
merged with the falsy-coalescing `|| 8`. -/
theorem c10_zero_fs_radius_defaults_to_eight (pr : PresetSettings)
    (fsep : FrequencySeparation) (h : pr.frequencySeparation = some fsep)
    (h0 : fsep.radius = 0) : fsRadius pr = 8 := by
  unfold fsRadius
  rw [h]
  simp [h0]

/-- C10 witness at a concrete preset with frequencySeparation.radius = 0. -/
theorem c10_zero_fs_radius_witness : fsRadius prZeroRadius = 8 :=
  c10_zero_fs_radius_defaults_to_eight prZeroRadius ⟨0, 1, none⟩ rfl rfl

lemma zipWith4_replicate (f : Pixel → Pixel → Pixel → Pixel → Pixel) (a c : Pixel)
    (hf : ∀ x y z, f a x y z = c) :
    ∀ (n : ℕ) (l2 l3 l4 : List Pixel), l2.length = n → l3.length = n →
      l4.length = n → zipWith4 f (List.replicate n a) l2 l3 l4 = List.replicate n c := by
  intro n
  induction n with
  | zero =>
    intro l2 l3 l4 _ _ _
    rw [List.replicate_zero, zipWith4_nil, List.replicate_zero]
  | succ n ih =>
    intro l2 l3 l4 h2 h3 h4
    cases l2 with
    | nil => exact absurd h2 (by simp)
    | cons p2 t2 =>
      cases l3 with
      | nil => exact absurd h3 (by simp)
      | cons p3 t3 =>
        cases l4 with
        | nil => exact absurd h4 (by simp)
        | cons p4 t4 =>
          rw [List.replicate_succ, List.replicate_succ]
          show f a p2 p3 p4 :: zipWith4 f (List.replicate n a) t2 t3 t4 = _
          rw [hf p2 p3 p4,
            ih t2 t3 t4 (by simpa using h2) (by simpa using h3) (by simpa using h4)]

lemma boxBlur_length (radius : ℚ) (buf : List Pixel) :
    (boxBlur radius buf).length = buf.length := by
  unfold boxBlur
  simp

lemma u8store_154 : u8store 154 = 154 := by with_unfolding_all rfl

lemma mainPixel_s8_gray (x y z : Pixel) : mainPixel s8 gray154 x y z = gray154 := by
  unfold mainPixel vibrancePixel
  norm_num [s8, gray154, isSkin, u8store_154]

/-- C8: on a uniform mid-gray 4×4 image (16 pixels, every channel 128),
with the default preset (empty filter string), exposure = 1.2 and all
other parameters at their defaults, every channel equals 154 after the
ToneStage (128·1.2 = 153.6 stored as 154), and the final output of the
whole pipeline is that same buffer — no later stage changes any pixel —
for every oracle whose base filter is the identity on this buffer at the
identity parameters and whose blur preserves the buffer's length. -/
theorem c8_midgray_scenario (O : Oracles)
    (hbase : O.baseFilter "" 1 1 (List.replicate 16 gray154) = List.replicate 16 gray154)
    (hblur : ∀ radius, (O.blur radius (List.replicate 16 gray154)).length = 16) :
    toneStage pr8 s8 (List.replicate 16 gray128) = List.replicate 16 gray154 ∧
    processPipeline O pr8 s8 (List.replicate 16 gray128) = List.replicate 16 gray154 := by
  have htone : toneStage pr8 s8 (List.replicate 16 gray128) = List.replicate 16 gray154 := by
    unfold toneStage
    rw [show s8.disabled.basic = false from rfl]
    rw [if_neg (by simp), List.map_replicate,
      show tonePixel pr8 s8 gray128 = gray154 from by with_unfolding_all rfl]
  refine ⟨htone, ?_⟩
  have hdetail : detailStage O s8 (List.replicate 16 gray154) = List.replicate 16 gray154 := by
    unfold detailStage
    rw [if_neg]
    intro h
    exact lt_irrefl (0:ℚ) h.2
  have hst : stage3 O pr8 s8 (List.replicate 16 gray154) = List.replicate 16 gray154 := by
    unfold stage3 mainStage
    rw [hdetail]
    exact zipWith4_replicate _ _ _ mainPixel_s8_gray 16 _ _ _ (hblur 2) (hblur 12)
      (hblur (fsRadius pr8))
  unfold processPipeline pipelineAfterTone
  rw [htone, show O.baseFilter pr8.filters s8.contrast s8.saturation
        (List.replicate 16 gray154) = List.replicate 16 gray154 from hbase, hst,
      show vignetteStage O s8 (List.replicate 16 gray154) = List.replicate 16 gray154 from rfl,
      show effectsStage s8 (List.replicate 16 gray154) = List.replicate 16 gray154 from rfl,
      show watermarkStage O s8 (List.replicate 16 gray154) = List.replicate 16 gray154 from rfl]

/-- C8 witness: the concrete oracle `O0` (identity base filter, box
blur, identity placeholders) satisfies both hypotheses, and the scenario
evaluates as claimed. -/
theorem c8_midgray_scenario_witness :
    toneStage pr8 s8 (List.replicate 16 gray128) = List.replicate 16 gray154 ∧
    processPipeline O0 pr8 s8 (List.replicate 16 gray128) = List.replicate 16 gray154 :=
  c8_midgray_scenario O0 (by with_unfolding_all rfl)
    (fun radius => by rw [show O0.blur = boxBlur from rfl, boxBlur_length]; rfl)

lemma tonePixel_basic_defaults (pres : PresetSettings) (s : Settings) (p : Pixel)
    (ht : presetTemp pres = 0) (htn : presetTint pres = 0) (hp : PixelWF p) :
    tonePixel pres (sectionDefaults SectionKey.basic (setFlag SectionKey.basic false s)) p = p := by
  obtain ⟨hr, hg, hb⟩ := hp
  obtain ⟨r, g, b, a⟩ := p
  unfold tonePixel applyWB sectionDefaults setFlag
  dsimp only
  rw [ht, htn]
  norm_num
  exact ⟨u8store_eq_self hr, u8store_eq_self hg, u8store_eq_self hb⟩

lemma toneStage_basic_disabled (pres : PresetSettings) (s : Settings) (img : List Pixel) :
    toneStage pres (setFlag SectionKey.basic true s) img = img := by
  unfold toneStage setFlag
  simp

lemma toneStage_basic_defaults (pres : PresetSettings) (s : Settings) (img : List Pixel)
    (ht : presetTemp pres = 0) (htn : presetTint pres = 0) (hwf : BufWF img) :
    toneStage pres (sectionDefaults SectionKey.basic (setFlag SectionKey.basic false s)) img = img := by
  unfold toneStage
  rw [show (sectionDefaults SectionKey.basic (setFlag SectionKey.basic false s)).disabled.basic = false from rfl]
  simp only [Bool.false_eq_true, if_false]
  rw [List.map_congr_left fun p hp =>
    tonePixel_basic_defaults pres s p ht htn (hwf p hp)]
  simp

lemma mainPixel_retouch_defaults (s : Settings) (ht : 0 ≤ s.texture) (p f m fsp : Pixel) :
    mainPixel (setFlag SectionKey.retouch true s) p f m fsp =
    mainPixel (sectionDefaults SectionKey.retouch (setFlag SectionKey.retouch false s)) p f m fsp := by
  unfold mainPixel setFlag sectionDefaults
  dsimp only
  have hbl : blendFactor 0 s.texture = 0 := by
    unfold blendFactor jsAbs
    rw [if_neg (not_lt.mpr ht)]
    ring
  rw [hbl]
  simp [Bool.true_eq_false, false_and, and_false, lt_self_iff_false, ite_self]

set_option maxRecDepth 100000 in
/-- C3 counterexample: with texture = −0.5 (a Basic-panel parameter) and
all retouch parameters already at their no-op defaults, disabling the
retouch section changes the output: the skin blend factor
`(skinSoftening·0.6 + max(0,−texture))·0.8 = 0.4` is nonzero even at
default retouch parameters, so the skin pixel is blended toward the
frequency-separation blur only in the enabled run (r = 168 versus
r = 180). -/
theorem c3_counterexample_retouch_disable :
    processPipeline O0 pr0 (setFlag SectionKey.retouch true sTex) img0 ≠
    processPipeline O0 pr0 (sectionDefaults SectionKey.retouch (setFlag SectionKey.retouch false sTex)) img0 := by
  have h1 : processPipeline O0 pr0 (setFlag SectionKey.retouch true sTex) img0 =
      [⟨180, 150, 100, 255⟩, ⟨120, 150, 100, 255⟩] := by with_unfolding_all rfl
  have h2 : processPipeline O0 pr0
      (sectionDefaults SectionKey.retouch (setFlag SectionKey.retouch false sTex)) img0 =
      [⟨168, 150, 100, 255⟩, ⟨120, 150, 100, 255⟩] := by with_unfolding_all rfl
  rw [h1, h2]
  intro h
  simp only [List.cons.injEq, Pixel.mk.injEq] at h
  exact absurd h.1.1 (by norm_num)

/-- C3 amended: disabling a section equals resetting that section's own
gated parameters to their no-op defaults, for the keys detail, grading,
effects and watermark unconditionally; for basic provided the preset
contributes no white balance (summing temp/tint would otherwise still
fire with the flag off) and the input buffer holds stored 8-bit channel
values; and for retouch provided texture ≥ 0 (a negative texture feeds
the skin blend even at default retouch parameters, as the counterexample
shows). -/
theorem c3_section_disable_amended (k : SectionKey) (O : Oracles)
    (pres : PresetSettings) (s : Settings) (img : List Pixel)
    (hbasic : k = SectionKey.basic → presetTemp pres = 0 ∧ presetTint pres = 0 ∧ BufWF img)
    (hret : k = SectionKey.retouch → 0 ≤ s.texture) :
    processPipeline O pres (setFlag k true s) img =
    processPipeline O pres (sectionDefaults k (setFlag k false s)) img := by
  cases k with
  | basic =>
    obtain ⟨ht, htn, hwf⟩ := hbasic rfl
    unfold processPipeline
    rw [toneStage_basic_disabled, toneStage_basic_defaults pres s img ht htn hwf]
    with_unfolding_all rfl
  | detail => with_unfolding_all rfl
  | grading => with_unfolding_all rfl
  | effects => with_unfolding_all rfl
  | watermark => with_unfolding_all rfl
  | retouch =>
    have ht := hret rfl
    have hfun : mainPixel (setFlag SectionKey.retouch true s) =
        mainPixel (sectionDefaults SectionKey.retouch (setFlag SectionKey.retouch false s)) :=
      funext fun p => funext fun f => funext fun m => funext fun fsp =>
        mainPixel_retouch_defaults s ht p f m fsp
    unfold processPipeline pipelineAfterTone stage3 mainStage
    rw [hfun]
    with_unfolding_all rfl

/-- C3 amended, witness: the basic key on the concrete two-pixel image
with a preset carrying no colorBalance. -/
theorem c3_section_disable_witness :
    processPipeline O0 pr0 (setFlag SectionKey.basic true sTex) img0 =
    processPipeline O0 pr0 (sectionDefaults SectionKey.basic (setFlag SectionKey.basic false sTex)) img0 :=
  c3_section_disable_amended SectionKey.basic O0 pr0 sTex img0
    (fun _ => ⟨rfl, rfl, by norm_num [BufWF, PixelWF, chanWF, img0]⟩)
    (fun h => nomatch h)
